import Mathlib

/-!
Verification of the TaskManager state machine (src/task_manager.py).

The Python module keeps its whole state as JSON-compatible values
(dicts, lists, strings, numbers, booleans, None), persisted as a single
flat JSON document.  We embed JSON values as the inductive type `Json`,
Python dicts as insertion-ordered association lists, and the file system
as an `Option Json` (the parsed content of the file at the configured
path, or `none` when the file does not exist).
-/

/-- A JSON-compatible Python value. Dicts are insertion-ordered association
lists with string keys, mirroring what `json.load` produces. -/
inductive Json where
  | null
  | bool (b : Bool)
  | num (n : Int)
  | str (s : String)
  | arr (elems : List Json)
  | obj (kvs : List (String × Json))

/-- Python truthiness (`bool(v)`) of a JSON-compatible value, as used by
`x or default` in the constructor. -/
def Json.truthy : Json → Bool
  | .null => false
  | .bool b => b
  | .num n => n != 0
  | .str s => s != ""
  | .arr elems => !elems.isEmpty
  | .obj kvs => !kvs.isEmpty

/-- `v or d` for an optional-with-default parameter (`def f(x=None): x or d`):
`none` stands for the Python default `None`. -/
def pyOrD (v : Option Json) (d : Json) : Json :=
  match v with
  | none => d
  | some j => if j.truthy then j else d

/-- `d.get(k, default)` on a Python dict built from the pairs `kvs` in order;
a later binding of the same key overwrites an earlier one, as in `dict`. -/
def pyDictGet (kvs : List (String × Json)) (k : String) (d : Json) : Json :=
  match (kvs.filter (fun kv => kv.1 = k)).getLast? with
  | some kv => kv.2
  | none => d

/-- The keys of a JSON object (empty for non-objects). -/
def Json.keys : Json → List String
  | .obj kvs => kvs.map Prod.fst
  | _ => []

/-- Dict lookup on a JSON value: `some v` when the value is an object binding
`k` (last binding wins), `none` otherwise. -/
def Json.lookupKey : Json → String → Option Json
  | .obj kvs, k =>
      match (kvs.filter (fun kv => kv.1 = k)).getLast? with
      | some kv => some kv.2
      | none => none
  | _, _ => none

/-- The in-memory state of a `TaskManager` (src/task_manager.py, class
`TaskManager`).  The callable-valued attributes (`llm`, `output_func`,
`complete_func`, `input_func`) are external collaborators and carry no
state relevant to the specified behaviour, so they are not part of the
record.  The four persistable fields keep the JSON shape they have in
Python. -/
structure TaskManager where
  final_goal : String
  tools : List (List (String × String))
  verbose : Bool
  goal_completed : Bool
  final_result : Json
  stored_info : Json
  persist : Option String
  completed_tasks : Json
  current_tasks : Json
  allow_repeat_tasks : Bool
  confirm_tool : Bool
  tools_str : String

/-- `TaskManager._make_tools_str`:
`'-----\n'.join(['\n'.join([f'{k}: {v}' for k, v in tool.items()]) for tool in tools])`. -/
def make_tools_str (tools : List (List (String × String))) : String :=
  String.intercalate "-----\n"
    (tools.map (fun tool =>
      String.intercalate "\n" (tool.map (fun kv => kv.1 ++ ": " ++ kv.2))))

/-- `TaskManager._save_persist`: the JSON document written (wholesale) to the
persistence file. -/
def save_persist (st : TaskManager) : Json :=
  .obj [("stored_info", st.stored_info),
        ("final_result", st.final_result),
        ("current_tasks", st.current_tasks),
        ("completed_tasks", st.completed_tasks)]

/-- `TaskManager._load_persist`.  `file` is the parsed content of the file at
`self.persist` (`none` when `os.path.exists` is false, in which case
`saved = {}`).  When the file holds a non-object, Python's `saved.get`
raises `AttributeError`, modelled as `.error`. -/
def load_persist (file : Option Json) (st : TaskManager) : Except String TaskManager :=
  match file with
  | none =>
      .ok { st with
        stored_info := .obj [],
        final_result := .obj [],
        current_tasks := .arr [],
        completed_tasks := .obj [] }
  | some (.obj kvs) =>
      .ok { st with
        stored_info := pyDictGet kvs "stored_info" (.obj []),
        final_result := pyDictGet kvs "final_result" (.obj []),
        current_tasks := pyDictGet kvs "current_tasks" (.arr []),
        completed_tasks := pyDictGet kvs "completed_tasks" (.obj []) }
  | some _ => .error "AttributeError"

/-- Truthiness of the `persist: str = None` parameter, as tested by
`if persist:` in `__init__` (`None` and the empty string are falsy). -/
def persistTruthy : Option String → Bool
  | none => false
  | some s => s != ""

/-- `TaskManager.__init__`.  `file` is the parsed content of the file at the
persistence path (`none` when missing); it is only consulted when
`persist` is truthy, matching `if persist: self._load_persist()`.  Field
assignments follow the constructor's order: the caller-supplied
`current_tasks`/`final_result`/`completed_tasks` (each defaulted through
`or`), `stored_info = {}`, then the optional load, then
`self.tools_str = self._make_tools_str(self.tools)`. -/
def TaskManager.init (goal : String) (tools : List (List (String × String)))
    (verbose : Bool) (current_tasks : Option Json) (final_result : Option Json)
    (allow_repeat_tasks : Bool) (completed_tasks : Option Json)
    (persist : Option String) (confirm_tool : Bool)
    (file : Option Json) : Except String TaskManager :=
  let st0 : TaskManager :=
    { final_goal := goal
      tools := tools
      verbose := verbose
      goal_completed := false
      completed_tasks := pyOrD completed_tasks (.obj [])
      persist := persist
      confirm_tool := confirm_tool
      current_tasks := pyOrD current_tasks (.arr [])
      final_result := pyOrD final_result (.obj [])
      stored_info := .obj []
      allow_repeat_tasks := allow_repeat_tasks
      tools_str := "" }
  match (if persistTruthy persist then load_persist file st0 else .ok st0) with
  | .error e => .error e
  | .ok st1 => .ok { st1 with tools_str := make_tools_str tools }

/-!
### Tool conversion and the default completion callback
-/

/-- An element of the list given to `convert_langchain_tools`: either a
langchain `BaseTool` instance, carrying its `name` and `description`
string attributes, or a value of some other type. -/
inductive LCItem where
  | base (name description : String)
  | notTool
deriving DecidableEq, Repr

/-- `convert_langchain_tools`:
`[{'name': tool.name, 'description': tool.description} for tool in tools if isinstance(tool, BaseTool)]`. -/
def convert_langchain_tools (tools : List LCItem) : List (List (String × String)) :=
  tools.filterMap (fun t =>
    match t with
    | .base n d => some [("name", n), ("description", d)]
    | .notTool => none)

/-- Spec-side restatement of the claimed behaviour of
`convert_langchain_tools`: walk the input in order, emit one
`name`/`description` dictionary per `BaseTool` element, drop the rest. -/
def convertToolsSpec : List LCItem → List (List (String × String))
  | [] => []
  | .base n d :: rest => [("name", n), ("description", d)] :: convertToolsSpec rest
  | .notTool :: rest => convertToolsSpec rest

/-- Python `str.replace(old, new)` on character lists: scan left to right,
replacing each non-overlapping occurrence of the non-empty `old` by
`new`. -/
def pyReplaceChars (old new : List Char) : List Char → List Char
  | [] => []
  | c :: rest =>
    if h : old ≠ [] ∧ old.isPrefixOf (c :: rest) = true then
      new ++ pyReplaceChars old new ((c :: rest).drop old.length)
    else
      c :: pyReplaceChars old new rest
termination_by l => l.length
decreasing_by
  · have hold : 0 < old.length := List.length_pos.mpr h.1
    simp only [List.length_drop, List.length_cons]
    omega
  · simp

/-- Python `str.replace(old, new)` on strings. -/
def pyReplace (s old new : String) : String :=
  String.mk (pyReplaceChars old.data new.data s.data)

/-- `save_to_file(goal, result)`: the effect of the default completion
callback, as the pair (file name written, JSON document written).  The
name is `goal.replace(' ', '_') + '.result.txt'`; the content is the
`json.dump` of `result`, modelled as the JSON value itself. -/
def save_to_file (goal : String) (result : Json) : String × Json :=
  (pyReplace goal " " "_" ++ ".result.txt", result)

/-!
### The task loop

The loop itself (`run`, `create_tasks`, `execute_next_task`, `refine`,
`repair_json`) is not present under `src/` — only its prompt templates
are — so it is modelled from the spec (§4.1) as a fuel-bounded transition
system over an explicit loop state, with the language model abstracted as
an oracle.
-/

/-- Modelled from the spec: the missing `refine` step's parsed response —
updated current_tasks, stored_info, final_result, an optional thoughts
string (echoed to output only) and a goal_complete boolean. -/
structure RefineResp where
  current_tasks : List String
  stored_info : Json
  final_result : Json
  thoughts : Option String
  goal_complete : Bool

/-- Modelled from the spec: the state carried by the missing `run` loop.
CompletedTasks maps each executed task string to its textual result. -/
structure LoopState where
  final_goal : String
  current_tasks : List String
  stored_info : Json
  final_result : Json
  completed_tasks : List (String × String)
  goal_completed : Bool
  allow_repeat_tasks : Bool

/-- `d[k] = v` on a Python dict as an insertion-ordered association list:
overwrite an existing binding in place, otherwise append. -/
def dictInsert (kvs : List (String × String)) (k v : String) : List (String × String) :=
  if kvs.any (fun kv => kv.1 = k) then
    kvs.map (fun kv => if kv.1 = k then (k, v) else kv)
  else
    kvs ++ [(k, v)]

/-- Modelled from the spec: the missing `refine(task, result)` applies all
returned fields, overwriting the corresponding in-memory state, and
records (task → result) into CompletedTasks. -/
def applyRefine (st : LoopState) (task result : String) (r : RefineResp) : LoopState :=
  { st with
    current_tasks := r.current_tasks,
    stored_info := r.stored_info,
    final_result := r.final_result,
    goal_completed := r.goal_complete,
    completed_tasks := dictInsert st.completed_tasks task result }

/-- An observable event of the loop: a task sent to the model for
execution, a task skipped by the repeat-task policy, or the completion
callback invoked with (goal, FinalResult). -/
inductive Event where
  | executed (task : String)
  | skipped (task : String)
  | completed (goal : String) (result : Json)

/-- Modelled from the spec: the missing `run` loop body — while not
GoalComplete and CurrentTasks non-empty: executeNextTask() then refine();
on GoalComplete or exhausted tasks, invoke the completion callback with
(goal, FinalResult).  The repeat-task policy: with `allowRepeatTasks`
false, a task already a key of CompletedTasks is skipped rather than
executed.  `oracle k` gives the k-th executed task's textual result and
parsed refine response; `fuel` bounds the iterations.  Returns the
emitted events and the final state. -/
def runLoop (oracle : Nat → String × RefineResp) :
    Nat → Nat → LoopState → List Event × LoopState
  | 0, _, st => ([], st)
  | fuel + 1, k, st =>
    if st.goal_completed then
      ([.completed st.final_goal st.final_result], st)
    else
      match st.current_tasks with
      | [] => ([.completed st.final_goal st.final_result], st)
      | task :: rest =>
        if !st.allow_repeat_tasks && st.completed_tasks.any (fun kv => kv.1 = task) then
          let next := runLoop oracle fuel k { st with current_tasks := rest }
          (.skipped task :: next.1, next.2)
        else
          let st' := applyRefine { st with current_tasks := rest } task (oracle k).1 (oracle k).2
          let next := runLoop oracle fuel (k + 1) st'
          (.executed task :: next.1, next.2)

/-- Modelled from the spec: the missing `run()` — if CurrentTasks is
empty, createInitialTasks() populates it with the model's task list
(`createdTasks`), then the loop runs. -/
def run (createdTasks : List String) (oracle : Nat → String × RefineResp)
    (fuel : Nat) (st : LoopState) : List Event × LoopState :=
  let st1 := if st.current_tasks.isEmpty then { st with current_tasks := createdTasks } else st
  runLoop oracle fuel 0 st1

/-- Modelled from the spec: the missing `repair_json` retry chain for a
response that must parse as JSON.  `parse` parses a raw model response
(`none` = parse failure), `repair` is the model's answer to the repair
prompt on a given bad text.  The original response is tried first; each
failure invokes the repair prompt, up to `retries` more times; exhausting
the retries is a fatal parse failure. -/
def tryRepair {α : Type} (parse : String → Option α) (repair : String → String) :
    String → Nat → Option α
  | raw, 0 =>
    match parse raw with
    | some p => some p
    | none => none
  | raw, r + 1 =>
    match parse raw with
    | some p => some p
    | none => tryRepair parse repair (repair raw) r

/-- Modelled from the spec: one refine iteration with repair fallback.  On
a successful (possibly repaired) parse the response is applied and the
flag is `true`; when the retries are exhausted the iteration is fatal and
the pre-iteration state is returned unchanged with flag `false`. -/
def refineIteration (parse : String → Option RefineResp) (repair : String → String)
    (st : LoopState) (task result raw : String) (retries : Nat) : LoopState × Bool :=
  match tryRepair parse repair raw retries with
  | some resp => (applyRefine st task result resp, true)
  | none => (st, false)

/-- Modelled from the spec: one createInitialTasks iteration with repair
fallback; a successful parse populates CurrentTasks only. -/
def createIteration (parse : String → Option (List String)) (repair : String → String)
    (st : LoopState) (raw : String) (retries : Nat) : LoopState × Bool :=
  match tryRepair parse repair raw retries with
  | some tasks => ({ st with current_tasks := tasks }, true)
  | none => (st, false)

/-!
### Concrete data for witnesses
-/

/-- A concrete refine response used as loop-oracle output in witnesses. -/
def respW : RefineResp :=
  { current_tasks := ["t2"], stored_info := .obj [],
    final_result := .obj [("k", .num 1)], thoughts := none, goal_complete := false }

/-- A loop state with the goal already complete and no tasks. -/
def stDone : LoopState :=
  { final_goal := "g", current_tasks := [], stored_info := .obj [],
    final_result := .obj [("c", .str "x")], completed_tasks := [],
    goal_completed := true, allow_repeat_tasks := false }

/-- A loop state whose first task is already completed, repeats disallowed. -/
def stRepeat : LoopState :=
  { final_goal := "g", current_tasks := ["a", "b"], stored_info := .obj [],
    final_result := .obj [], completed_tasks := [("a", "r")],
    goal_completed := false, allow_repeat_tasks := false }

/-- A loop state for single-iteration witnesses. -/
def stIter : LoopState :=
  { final_goal := "g", current_tasks := ["a"], stored_info := .obj [],
    final_result := .obj [], completed_tasks := [],
    goal_completed := false, allow_repeat_tasks := true }

/-- A refine-response parser recognising only the raw text "good". -/
def parseR0 : String → Option RefineResp :=
  fun s => if s = "good" then some respW else none

/-- A task-list parser recognising only the raw text "good". -/
def parseC0 : String → Option (List String) :=
  fun s => if s = "good" then some ["t1", "t2"] else none

/-- A repair oracle whose answer always parses. -/
def repairGood : String → String := fun _ => "good"

/-- A repair oracle whose answer never parses. -/
def repairBad : String → String := fun _ => "bad"

/-- A loop oracle returning a fixed task result and refine response. -/
def oracleW : Nat → String × RefineResp := fun _ => ("res", respW)

/-!
### Theorems
-/

/-- C1: for every TaskManager state (whose four persistable fields are
JSON-compatible values by construction), `_save_persist` followed by
`_load_persist` on the same path reproduces state equal to the saved one:
the loaded StoredInfo, FinalResult, CurrentTasks and CompletedTasks equal
the values that were saved, and loading back into the saving manager
restores it exactly. -/
theorem persist_round_trip (st st' : TaskManager) :
    load_persist (some (save_persist st)) st' =
      .ok { st' with
        stored_info := st.stored_info,
        final_result := st.final_result,
        current_tasks := st.current_tasks,
        completed_tasks := st.completed_tasks } ∧
    load_persist (some (save_persist st)) st = .ok st :=
  ⟨rfl, rfl⟩

/-- C4: `_save_persist` writes a JSON document whose top level is an object
with exactly the four keys stored_info, final_result, current_tasks and
completed_tasks — in that order and no others — bound to the in-memory
StoredInfo, FinalResult, CurrentTasks and CompletedTasks. -/
theorem save_persist_exact_keys (st : TaskManager) :
    Json.keys (save_persist st) =
      ["stored_info", "final_result", "current_tasks", "completed_tasks"] ∧
    Json.lookupKey (save_persist st) "stored_info" = some st.stored_info ∧
    Json.lookupKey (save_persist st) "final_result" = some st.final_result ∧
    Json.lookupKey (save_persist st) "current_tasks" = some st.current_tasks ∧
    Json.lookupKey (save_persist st) "completed_tasks" = some st.completed_tasks :=
  ⟨rfl, rfl, rfl, rfl, rfl⟩

/-- C3: with a configured (truthy) persistence path and no file at that
path, construction succeeds — the missing file is treated as empty prior
state, leaving StoredInfo, FinalResult, CurrentTasks and CompletedTasks
empty. -/
theorem missing_file_init_empty (goal : String) (tools : List (List (String × String)))
    (verbose : Bool) (ct fr cmt : Option Json) (art : Bool) (p : String)
    (confirm : Bool) (h : p ≠ "") :
    TaskManager.init goal tools verbose ct fr art cmt (some p) confirm none =
      .ok { final_goal := goal, tools := tools, verbose := verbose,
            goal_completed := false, final_result := .obj [],
            stored_info := .obj [], persist := some p,
            completed_tasks := .obj [], current_tasks := .arr [],
            allow_repeat_tasks := art, confirm_tool := confirm,
            tools_str := make_tools_str tools } := by
  have hp : persistTruthy (some p) = true := by simp [persistTruthy, h]
  simp [TaskManager.init, hp, load_persist]

/-- Witness for C3 at a concrete path and constructor arguments. -/
theorem missing_file_init_empty_witness :
    ("state.json" : String) ≠ "" ∧
    TaskManager.init "g" [[("name", "shell"), ("description", "run a command")]]
        true (some (.arr [.str "a"])) none true none (some "state.json") false none =
      .ok { final_goal := "g",
            tools := [[("name", "shell"), ("description", "run a command")]],
            verbose := true, goal_completed := false, final_result := .obj [],
            stored_info := .obj [], persist := some "state.json",
            completed_tasks := .obj [], current_tasks := .arr [],
            allow_repeat_tasks := true, confirm_tool := false,
            tools_str := make_tools_str
              [[("name", "shell"), ("description", "run a command")]] } :=
  ⟨by decide,
   missing_file_init_empty "g" [[("name", "shell"), ("description", "run a command")]]
     true (some (.arr [.str "a"])) none none true "state.json" false (by decide)⟩

/-- C8: with a truthy persistence path, the caller-supplied current_tasks,
final_result and completed_tasks arguments are discarded — the
constructed manager is the same whatever they were, because
`_load_persist` overwrites all four state fields; and with the file
missing all four fields (stored_info included, which has no constructor
parameter and is always reset to the empty dict) end up empty. -/
theorem persist_discards_constructor_args
    (goal : String) (tools : List (List (String × String))) (verbose : Bool)
    (ct fr cmt ct' fr' cmt' : Option Json) (art : Bool) (p : String)
    (confirm : Bool) (file : Option Json) (h : p ≠ "") :
    TaskManager.init goal tools verbose ct fr art cmt (some p) confirm file =
      TaskManager.init goal tools verbose ct' fr' art cmt' (some p) confirm file ∧
    TaskManager.init goal tools verbose ct fr art cmt (some p) confirm none =
      .ok { final_goal := goal, tools := tools, verbose := verbose,
            goal_completed := false, final_result := .obj [],
            stored_info := .obj [], persist := some p,
            completed_tasks := .obj [], current_tasks := .arr [],
            allow_repeat_tasks := art, confirm_tool := confirm,
            tools_str := make_tools_str tools } := by
  have hp : persistTruthy (some p) = true := by simp [persistTruthy, h]
  constructor
  · cases file with
    | none => simp [TaskManager.init, hp, load_persist]
    | some j => cases j <;> simp [TaskManager.init, hp, load_persist]
  · simp [TaskManager.init, hp, load_persist]

/-- Witness for C8: two constructions differing only in the caller-supplied
state arguments agree, and with a missing file the state is empty. -/
theorem persist_discards_constructor_args_witness :
    ("s.json" : String) ≠ "" ∧
    (TaskManager.init "g" [] true (some (.arr [.str "x"])) (some (.obj [("a", .num 1)]))
        true (some (.obj [("t", .str "r")])) (some "s.json") false
        (some (.obj [("stored_info", .obj [("k", .str "v")])])) =
      TaskManager.init "g" [] true none none true none (some "s.json") false
        (some (.obj [("stored_info", .obj [("k", .str "v")])])) ∧
     TaskManager.init "g" [] true (some (.arr [.str "x"])) (some (.obj [("a", .num 1)]))
        true (some (.obj [("t", .str "r")])) (some "s.json") false none =
      .ok { final_goal := "g", tools := [], verbose := true,
            goal_completed := false, final_result := .obj [],
            stored_info := .obj [], persist := some "s.json",
            completed_tasks := .obj [], current_tasks := .arr [],
            allow_repeat_tasks := true, confirm_tool := false,
            tools_str := make_tools_str [] }) :=
  ⟨by decide,
   persist_discards_constructor_args "g" [] true
     (some (.arr [.str "x"])) (some (.obj [("a", .num 1)])) (some (.obj [("t", .str "r")]))
     none none none true "s.json" false
     (some (.obj [("stored_info", .obj [("k", .str "v")])])) (by decide)⟩

/-- C9: `convert_langchain_tools` walks the input in order, emits one
dictionary with exactly the keys name and description per `BaseTool`
element, and silently drops the other elements — it coincides with the
order-preserving filter-and-render function `convertToolsSpec`. -/
theorem convert_tools_correct (tools : List LCItem) :
    convert_langchain_tools tools = convertToolsSpec tools := by
  induction tools with
  | nil => rfl
  | cons t rest ih =>
    cases t <;>
      simp only [convert_langchain_tools, convertToolsSpec, List.filterMap_cons] <;>
      simpa [convert_langchain_tools] using ih

/-- Replacing a single-character pattern scans character by character. -/
theorem pyReplaceChars_singleton (a b : Char) (l : List Char) :
    pyReplaceChars [a] [b] l = l.map (fun c => if c = a then b else c) := by
  induction l with
  | nil => simp [pyReplaceChars]
  | cons c rest ih =>
    rw [pyReplaceChars]
    by_cases hc : c = a
    · subst hc
      simp [List.isPrefixOf, ih]
    · simp [List.isPrefixOf, hc, ih, Ne.symm hc]

/-- C10: `save_to_file` writes the result document to the file whose name
is the goal string with every space character replaced by an underscore,
followed by the suffix '.result.txt'. -/
theorem save_to_file_filename (goal : String) (result : Json) :
    save_to_file goal result =
      (String.mk (goal.data.map (fun c => if c = ' ' then '_' else c)) ++ ".result.txt",
        result) := by
  unfold save_to_file pyReplace
  have h1 : (" " : String).data = [' '] := rfl
  have h2 : ("_" : String).data = ['_'] := rfl
  rw [h1, h2, pyReplaceChars_singleton]

/-- Counterexample to C5: constructed without a persistence path but with a
caller-supplied current_tasks argument, the manager does NOT start with
empty state — its CurrentTasks is the supplied non-empty list. -/
theorem init_without_persist_not_empty :
    TaskManager.init "g" [] true (some (.arr [.str "a"])) none true none none false none =
      .ok { final_goal := "g", tools := [], verbose := true, goal_completed := false,
            final_result := .obj [], stored_info := .obj [], persist := none,
            completed_tasks := .obj [], current_tasks := .arr [.str "a"],
            allow_repeat_tasks := true, confirm_tool := false,
            tools_str := "" } ∧
    Json.arr [.str "a"] ≠ Json.arr [] := by
  refine ⟨rfl, ?_⟩
  intro h
  injection h with h1
  exact List.noConfusion h1

/-- C5 (amended): with a truthy persistence path, construction loads the
four state fields from the existing file (with per-key empty defaults)
and starts empty when the file is missing; without a persistence path it
starts from the caller-supplied current_tasks/final_result/completed_tasks
(empty when omitted or falsy) and an empty stored_info; in all cases the
tool listing string is built from the tool descriptor list, rendering
each descriptor's keys, so each name and description. -/
theorem init_characterization
    (goal : String) (tools : List (List (String × String))) (verbose : Bool)
    (ct fr cmt : Option Json) (art confirm : Bool) (p : String) (file : Option Json)
    (h : p ≠ "") :
    (∀ kvs, file = some (.obj kvs) →
      TaskManager.init goal tools verbose ct fr art cmt (some p) confirm file =
        .ok { final_goal := goal, tools := tools, verbose := verbose,
              goal_completed := false,
              stored_info := pyDictGet kvs "stored_info" (.obj []),
              final_result := pyDictGet kvs "final_result" (.obj []),
              current_tasks := pyDictGet kvs "current_tasks" (.arr []),
              completed_tasks := pyDictGet kvs "completed_tasks" (.obj []),
              persist := some p, allow_repeat_tasks := art, confirm_tool := confirm,
              tools_str := make_tools_str tools }) ∧
    (TaskManager.init goal tools verbose ct fr art cmt (some p) confirm none =
      .ok { final_goal := goal, tools := tools, verbose := verbose,
            goal_completed := false, final_result := .obj [],
            stored_info := .obj [], persist := some p,
            completed_tasks := .obj [], current_tasks := .arr [],
            allow_repeat_tasks := art, confirm_tool := confirm,
            tools_str := make_tools_str tools }) ∧
    (TaskManager.init goal tools verbose ct fr art cmt none confirm file =
      .ok { final_goal := goal, tools := tools, verbose := verbose,
            goal_completed := false,
            stored_info := .obj [],
            final_result := pyOrD fr (.obj []),
            current_tasks := pyOrD ct (.arr []),
            completed_tasks := pyOrD cmt (.obj []),
            persist := none, allow_repeat_tasks := art, confirm_tool := confirm,
            tools_str := make_tools_str tools }) ∧
    (∀ n d, make_tools_str [[("name", n), ("description", d)]] =
      "name: " ++ n ++ "\n" ++ ("description: " ++ d)) := by
  have hp : persistTruthy (some p) = true := by simp [persistTruthy, h]
  refine ⟨?_, ?_, ?_, ?_⟩
  · intro kvs hf
    subst hf
    simp [TaskManager.init, hp, load_persist]
  · simp [TaskManager.init, hp, load_persist]
  · simp [TaskManager.init, persistTruthy]
  · intro n d
    rfl

/-- Witness for C5 (amended) at concrete constructions: loading an existing
file, and building the tool listing. -/
theorem init_characterization_witness :
    ("db.json" : String) ≠ "" ∧
    TaskManager.init "g" [[("name", "n1"), ("description", "d1")]] true none none false none
        (some "db.json") true (some (.obj [("final_result", .obj [("r", .num 2)])])) =
      .ok { final_goal := "g", tools := [[("name", "n1"), ("description", "d1")]],
            verbose := true, goal_completed := false,
            stored_info := .obj [],
            final_result := .obj [("r", .num 2)],
            current_tasks := .arr [],
            completed_tasks := .obj [],
            persist := some "db.json", allow_repeat_tasks := false, confirm_tool := true,
            tools_str := "name: n1" ++ "\n" ++ "description: d1" } ∧
    make_tools_str [[("name", "m"), ("description", "e")]] =
      "name: " ++ "m" ++ "\n" ++ ("description: " ++ "e") :=
  ⟨by decide,
   (init_characterization "g" [[("name", "n1"), ("description", "d1")]] true none none none
      false true "db.json" (some (.obj [("final_result", .obj [("r", .num 2)])]))
      (by decide)).1 [("final_result", .obj [("r", .num 2)])] rfl,
   (init_characterization "g" [[("name", "m"), ("description", "e")]] true none none none
      false true "db.json" none (by decide)).2.2.2 "m" "e"⟩

/-- C6: when run() starts with CurrentTasks empty and GoalComplete already
true, it terminates immediately without executing any task, and the
completion callback is invoked exactly once, with the goal and the
current FinalResult. -/
theorem run_immediate_completion (createdTasks : List String)
    (oracle : Nat → String × RefineResp) (fuel : Nat) (st : LoopState)
    (hempty : st.current_tasks = []) (hdone : st.goal_completed = true) :
    (run createdTasks oracle (fuel + 1) st).1 =
      [Event.completed st.final_goal st.final_result] ∧
    ∀ t, Event.executed t ∉ (run createdTasks oracle (fuel + 1) st).1 := by
  have h1 : (run createdTasks oracle (fuel + 1) st).1 =
      [Event.completed st.final_goal st.final_result] := by
    simp [run, hempty, runLoop, hdone]
  refine ⟨h1, fun t => ?_⟩
  rw [h1]
  intro hm
  rcases List.mem_singleton.mp hm with h
  exact Event.noConfusion h

/-- Witness for C6 at a concrete completed state. -/
theorem run_immediate_completion_witness :
    stDone.current_tasks = [] ∧ stDone.goal_completed = true ∧
    (run ["t1"] oracleW 1 stDone).1 = [Event.completed "g" (.obj [("c", .str "x")])] ∧
    Event.executed "t1" ∉ (run ["t1"] oracleW 1 stDone).1 :=
  ⟨rfl, rfl,
   (run_immediate_completion ["t1"] oracleW 0 stDone rfl rfl).1,
   (run_immediate_completion ["t1"] oracleW 0 stDone rfl rfl).2 "t1"⟩

/-- A key present in a dict stays present across `dictInsert`. -/
theorem any_key_dictInsert (kvs : List (String × String)) (k v t : String)
    (h : kvs.any (fun kv => kv.1 = t) = true) :
    (dictInsert kvs k v).any (fun kv => kv.1 = t) = true := by
  simp only [List.any_eq_true, decide_eq_true_eq] at h ⊢
  obtain ⟨kv, hmem, hkey⟩ := h
  unfold dictInsert
  split
  · by_cases hk : kv.1 = k
    · refine ⟨(k, v), List.mem_map.mpr ⟨kv, hmem, by simp [hk]⟩, ?_⟩
      rw [← hk]
      exact hkey
    · exact ⟨kv, List.mem_map.mpr ⟨kv, hmem, by simp [hk]⟩, hkey⟩
  · exact ⟨kv, List.mem_append_left _ hmem, hkey⟩

/-- C2: with allowRepeatTasks false, a task string already present as a key
in CompletedTasks is never executed by the loop — no `executed` event for
it ever appears in the trace, from any loop state, with any oracle and
any amount of fuel. -/
theorem no_repeat_execution (oracle : Nat → String × RefineResp)
    (fuel k : Nat) (st : LoopState) (t : String)
    (hallow : st.allow_repeat_tasks = false)
    (hmem : st.completed_tasks.any (fun kv => kv.1 = t) = true) :
    Event.executed t ∉ (runLoop oracle fuel k st).1 := by
  induction fuel generalizing k st with
  | zero => simp [runLoop]
  | succ n ih =>
    obtain ⟨g, cts, si, fr, cmp, gc, art⟩ := st
    replace hallow : art = false := hallow
    replace hmem : cmp.any (fun kv => kv.1 = t) = true := hmem
    subst hallow
    cases gc with
    | true =>
      rw [runLoop]
      intro hm
      rcases List.mem_singleton.mp hm with h
      exact Event.noConfusion h
    | false =>
      cases cts with
      | nil =>
        rw [runLoop]
        intro hm
        rcases List.mem_singleton.mp hm with h
        exact Event.noConfusion h
      | cons task rest =>
        by_cases hskip : cmp.any (fun kv => kv.1 = task) = true
        · rw [runLoop]
          simp only [Bool.not_false, Bool.true_and, hskip, if_true]
          intro hm
          rcases List.mem_cons.mp hm with h | h
          · exact Event.noConfusion h
          · exact ih k ⟨g, rest, si, fr, cmp, false, false⟩ rfl hmem h
        · rw [runLoop]
          simp only [Bool.not_false, Bool.true_and,
            Bool.not_eq_true (cmp.any (fun kv => kv.1 = task)) ▸ hskip, if_false]
          intro hm
          rcases List.mem_cons.mp hm with h | h
          · injection h with ht
            subst ht
            exact hskip hmem
          · refine ih (k + 1)
              (applyRefine ⟨g, rest, si, fr, cmp, false, false⟩ task
                (oracle k).1 (oracle k).2) rfl ?_ h
            exact any_key_dictInsert cmp task (oracle k).1 t hmem

/-- Witness for C2: with repeats disallowed and "a" already completed, the
loop trace never executes "a". -/
theorem no_repeat_execution_witness :
    stRepeat.allow_repeat_tasks = false ∧
    stRepeat.completed_tasks.any (fun kv => kv.1 = "a") = true ∧
    Event.executed "a" ∉ (runLoop oracleW 3 0 stRepeat).1 :=
  ⟨rfl, by decide, no_repeat_execution oracleW 3 0 stRepeat "a" rfl (by decide)⟩

/-- An immediately successful parse needs no repair. -/
theorem tryRepair_parse_ok {α : Type} (parse : String → Option α)
    (repair : String → String) (raw : String) (n : Nat) (p : α)
    (h : parse raw = some p) :
    tryRepair parse repair raw n = some p := by
  cases n with
  | zero => rw [tryRepair, h]
  | succ m => rw [tryRepair, h]

/-- A failed parse consumes one retry and moves to the repaired text. -/
theorem tryRepair_fail_step {α : Type} (parse : String → Option α)
    (repair : String → String) (raw : String) (n : Nat)
    (h : parse raw = none) :
    tryRepair parse repair raw (n + 1) = tryRepair parse repair (repair raw) n := by
  simp only [tryRepair, h]

/-- When the original text and every repaired text up to the retry bound
fail to parse, the whole chain fails. -/
theorem tryRepair_none_of_all_fail {α : Type} (parse : String → Option α)
    (repair : String → String) (raw : String) (n : Nat)
    (h : ∀ k, k ≤ n → parse (repair^[k] raw) = none) :
    tryRepair parse repair raw n = none := by
  induction n generalizing raw with
  | zero =>
    have h0 : parse raw = none := by simpa using h 0 (Nat.le_refl 0)
    rw [tryRepair, h0]
  | succ m ih =>
    have h0 : parse raw = none := by simpa using h 0 (Nat.zero_le _)
    rw [tryRepair_fail_step parse repair raw m h0]
    apply ih
    intro k hk
    have hs := h (k + 1) (Nat.succ_le_succ hk)
    rwa [Function.iterate_succ_apply] at hs

/-- C7: a model response that fails JSON parsing in the create or refine
step is retried through the repair prompt a bounded number of times.  A
later repaired response that parses makes the iteration proceed with the
repaired content; exhausting the retries is fatal for the iteration and
the pre-iteration state is returned unchanged — in both cases no state
field is mutated by a malformed attempt, fields being overwritten only
after a successful parse. -/
theorem repair_retry_preserves_state
    (parseR : String → Option RefineResp) (parseC : String → Option (List String))
    (repair : String → String) (st : LoopState) (task result raw : String) (n : Nat) :
    (∀ resp, parseR raw = none → parseR (repair raw) = some resp →
      refineIteration parseR repair st task result raw (n + 1) =
        (applyRefine st task result resp, true)) ∧
    ((∀ k, k ≤ n → parseR (repair^[k] raw) = none) →
      refineIteration parseR repair st task result raw n = (st, false)) ∧
    (∀ tasks, parseC raw = none → parseC (repair raw) = some tasks →
      createIteration parseC repair st raw (n + 1) =
        ({ st with current_tasks := tasks }, true)) ∧
    ((∀ k, k ≤ n → parseC (repair^[k] raw) = none) →
      createIteration parseC repair st raw n = (st, false)) := by
  refine ⟨?_, ?_, ?_, ?_⟩
  · intro resp h0 h1
    have hc : tryRepair parseR repair raw (n + 1) = some resp := by
      rw [tryRepair_fail_step parseR repair raw n h0]
      exact tryRepair_parse_ok parseR repair (repair raw) n resp h1
    simp [refineIteration, hc]
  · intro hall
    have hc : tryRepair parseR repair raw n = none :=
      tryRepair_none_of_all_fail parseR repair raw n hall
    simp [refineIteration, hc]
  · intro tasks h0 h1
    have hc : tryRepair parseC repair raw (n + 1) = some tasks := by
      rw [tryRepair_fail_step parseC repair raw n h0]
      exact tryRepair_parse_ok parseC repair (repair raw) n tasks h1
    simp [createIteration, hc]
  · intro hall
    have hc : tryRepair parseC repair raw n = none :=
      tryRepair_none_of_all_fail parseC repair raw n hall
    simp [createIteration, hc]

/-- Witness for C7 at concrete parsers, repair oracles and state: the
repaired response is used when it parses, and an exhausted retry chain
leaves the state exactly as before the iteration. -/
theorem repair_retry_preserves_state_witness :
    parseR0 "bad" = none ∧ parseR0 (repairGood "bad") = some respW ∧
    parseC0 "bad" = none ∧ parseC0 (repairGood "bad") = some ["t1", "t2"] ∧
    refineIteration parseR0 repairGood stIter "a" "res" "bad" 2 =
      (applyRefine stIter "a" "res" respW, true) ∧
    refineIteration parseR0 repairBad stIter "a" "res" "bad" 2 = (stIter, false) ∧
    createIteration parseC0 repairGood stIter "bad" 2 =
      ({ stIter with current_tasks := ["t1", "t2"] }, true) ∧
    createIteration parseC0 repairBad stIter "bad" 2 = (stIter, false) :=
  ⟨rfl, rfl, rfl, rfl,
   (repair_retry_preserves_state parseR0 parseC0 repairGood stIter "a" "res" "bad" 1).1
     respW rfl rfl,
   (repair_retry_preserves_state parseR0 parseC0 repairBad stIter "a" "res" "bad" 2).2.1
     (by intro k hk; interval_cases k <;> rfl),
   (repair_retry_preserves_state parseR0 parseC0 repairGood stIter "a" "res" "bad" 1).2.2.1
     ["t1", "t2"] rfl rfl,
   (repair_retry_preserves_state parseR0 parseC0 repairBad stIter "a" "res" "bad" 2).2.2.2
     (by intro k hk; interval_cases k <;> rfl)⟩
